import Mathlib

/-!
Verification of the Sumsub webhook relay (`src/SumsubApiClient.js`,
`server.js`, and the alternative server variants) against its
natural-language specification.

The JavaScript source is shallowly embedded: JS strings become `String` /
`List Char`, Node `Buffer`s become UTF-8 byte lists (`List Nat`),
`crypto.createHmac('sha256', …)` is a full executable HMAC-SHA-256
implementation, thrown exceptions become `Except`, the ambient clock
(`new Date()`) becomes an explicit `now : Nat` parameter, and network
collaborators (axios/fetch calls) become explicit outcome parameters
(oracles) supplied to each pipeline run.
-/

namespace Sumsub

/-! ## JavaScript string primitives

`String.prototype.includes` and `String.prototype.split` (with a non-empty
string separator) modelled on character lists exactly as ECMAScript
specifies them: `split` cuts at each leftmost non-overlapping occurrence
of the separator. -/

/-- `s.includes(sub)` for JS strings: `sub` occurs as a contiguous
substring of `s`. -/
def jsIncludes : List Char → List Char → Bool
  | s, sub =>
    if sub.isPrefixOf s then true
    else
      match s with
      | [] => false
      | _ :: rest => jsIncludes rest sub

/-- Fuel-driven worker for `jsSplit`. Each step consumes at least one
character of the subject string, so `fuel = s.length` never runs out. -/
def jsSplitFuel (sep : List Char) : Nat → List Char → List (List Char)
  | _, [] => [[]]
  | 0, s => [s]
  | fuel + 1, c :: rest =>
    if sep.isPrefixOf (c :: rest) then
      [] :: jsSplitFuel sep fuel (List.drop (sep.length - 1) rest)
    else
      match jsSplitFuel sep fuel rest with
      | [] => [[c]]
      | h :: t => (c :: h) :: t

/-- `s.split(sep)` for JS strings with a non-empty separator. -/
def jsSplit (sep s : List Char) : List (List Char) :=
  jsSplitFuel sep s.length s

/-- String-level wrapper for `jsSplit`. -/
def jsSplitS (sep s : String) : List String :=
  (jsSplit sep.toList s.toList).map (fun l => String.mk l)

/-- String-level wrapper for `jsIncludes`. -/
def jsIncludesS (s sub : String) : Bool :=
  jsIncludes s.toList sub.toList

/-! ## SHA-256 and HMAC-SHA-256

Executable model of Node's `crypto.createHmac('sha256', secret)
.update(payload).digest('hex')`. Bytes are `Nat`s below 256 and 32-bit
words are `Nat`s reduced modulo `2^32` (FIPS 180-4 / RFC 2104). -/

/-- Truncate to a 32-bit word. -/
def w32 (n : Nat) : Nat := n % 4294967296

/-- Right-rotation of a 32-bit word. -/
def rotr32 (n x : Nat) : Nat := w32 ((x >>> n) ||| (x <<< (32 - n)))

/-- Bitwise complement of a 32-bit word. -/
def not32 (x : Nat) : Nat := x ^^^ 4294967295

def sigma0 (x : Nat) : Nat := rotr32 7 x ^^^ rotr32 18 x ^^^ (x >>> 3)
def sigma1 (x : Nat) : Nat := rotr32 17 x ^^^ rotr32 19 x ^^^ (x >>> 10)
def bigSigma0 (x : Nat) : Nat := rotr32 2 x ^^^ rotr32 13 x ^^^ rotr32 22 x
def bigSigma1 (x : Nat) : Nat := rotr32 6 x ^^^ rotr32 11 x ^^^ rotr32 25 x
def chFn (x y z : Nat) : Nat := (x &&& y) ^^^ (not32 x &&& z)
def majFn (x y z : Nat) : Nat := (x &&& y) ^^^ (x &&& z) ^^^ (y &&& z)

/-- The 64 SHA-256 round constants. -/
def sha256K : List Nat :=
  [1116352408, 1899447441, 3049323471, 3921009573, 961987163,
   1508970993, 2453635748, 2870763221, 3624381080, 310598401,
   607225278, 1426881987, 1925078388, 2162078206, 2614888103,
   3248222580, 3835390401, 4022224774, 264347078, 604807628,
   770255983, 1249150122, 1555081692, 1996064986, 2554220882,
   2821834349, 2952996808, 3210313671, 3336571891, 3584528711,
   113926993, 338241895, 666307205, 773529912, 1294757372,
   1396182291, 1695183700, 1986661051, 2177026350, 2456956037,
   2730485921, 2820302411, 3259730800, 3345764771, 3516065817,
   3600352804, 4094571909, 275423344, 430227734, 506948616,
   659060556, 883997877, 958139571, 1322822218, 1537002063,
   1747873779, 1955562222, 2024104815, 2227730452, 2361852424,
   2428436474, 2756734187, 3204031479, 3329325298]

/-- Big-endian packing of bytes into 32-bit words. -/
def bytesToWords : List Nat → List Nat
  | b0 :: b1 :: b2 :: b3 :: rest =>
    (b0 * 16777216 + b1 * 65536 + b2 * 256 + b3) :: bytesToWords rest
  | _ => []

/-- Big-endian unpacking of a 32-bit word into 4 bytes. -/
def word32Bytes (w : Nat) : List Nat :=
  [(w >>> 24) &&& 255, (w >>> 16) &&& 255, (w >>> 8) &&& 255, w &&& 255]

/-- Extend a message schedule by one word. -/
def scheduleStep (ws : List Nat) : List Nat :=
  let n := ws.length
  ws ++ [w32 (ws.getD (n - 16) 0 + sigma0 (ws.getD (n - 15) 0) +
              ws.getD (n - 7) 0 + sigma1 (ws.getD (n - 2) 0))]

/-- The 64-word message schedule of a 16-word block. -/
def schedule (ws : List Nat) : List Nat :=
  (List.range 48).foldl (fun acc _ => scheduleStep acc) ws

/-- The 8-word SHA-256 hash state. -/
structure Hash8 where
  h0 : Nat
  h1 : Nat
  h2 : Nat
  h3 : Nat
  h4 : Nat
  h5 : Nat
  h6 : Nat
  h7 : Nat
deriving DecidableEq

/-- SHA-256 initial hash value. -/
def sha256Init : Hash8 :=
  ⟨1779033703, 3144134277, 1013904242, 2773480762,
   1359893119, 2600822924, 528734635, 1541459225⟩

/-- One SHA-256 compression round. -/
def sha256Round (t : Hash8) (kw : Nat × Nat) : Hash8 :=
  let t1 := w32 (t.h7 + bigSigma1 t.h4 + chFn t.h4 t.h5 t.h6 + kw.1 + kw.2)
  let t2 := w32 (bigSigma0 t.h0 + majFn t.h0 t.h1 t.h2)
  ⟨w32 (t1 + t2), t.h0, t.h1, t.h2, w32 (t.h3 + t1), t.h4, t.h5, t.h6⟩

/-- Compress one 64-byte block into the running hash state. -/
def compressBlock (st : Hash8) (block : List Nat) : Hash8 :=
  let ws := schedule (bytesToWords block)
  let r := (List.zip sha256K ws).foldl sha256Round st
  ⟨w32 (st.h0 + r.h0), w32 (st.h1 + r.h1), w32 (st.h2 + r.h2),
   w32 (st.h3 + r.h3), w32 (st.h4 + r.h4), w32 (st.h5 + r.h5),
   w32 (st.h6 + r.h6), w32 (st.h7 + r.h7)⟩

/-- FIPS 180-4 padding: `0x80`, zeros to 56 mod 64, 8-byte bit length. -/
def sha256Pad (msg : List Nat) : List Nat :=
  let L := msg.length
  let zeros := List.replicate ((119 - L % 64) % 64) 0
  let bits := 8 * L
  msg ++ [128] ++ zeros ++
    [(bits >>> 56) &&& 255, (bits >>> 48) &&& 255, (bits >>> 40) &&& 255,
     (bits >>> 32) &&& 255, (bits >>> 24) &&& 255, (bits >>> 16) &&& 255,
     (bits >>> 8) &&& 255, bits &&& 255]

/-- Chunk a byte list into 64-byte blocks (fuel-driven). -/
def toBlocksFuel : Nat → List Nat → List (List Nat)
  | _, [] => []
  | 0, l => [l]
  | fuel + 1, l => l.take 64 :: toBlocksFuel fuel (l.drop 64)

def toBlocks (l : List Nat) : List (List Nat) := toBlocksFuel l.length l

/-- SHA-256 of a byte list, producing the 32 digest bytes. -/
def sha256 (msg : List Nat) : List Nat :=
  let final := (toBlocks (sha256Pad msg)).foldl compressBlock sha256Init
  word32Bytes final.h0 ++ word32Bytes final.h1 ++ word32Bytes final.h2 ++
  word32Bytes final.h3 ++ word32Bytes final.h4 ++ word32Bytes final.h5 ++
  word32Bytes final.h6 ++ word32Bytes final.h7

/-- HMAC-SHA-256 (RFC 2104) of a byte-list key and message. -/
def hmacSha256 (key msg : List Nat) : List Nat :=
  let k0 := if key.length > 64 then sha256 key else key
  let k1 := k0 ++ List.replicate (64 - k0.length) 0
  let ipadKey := k1.map (fun b => b ^^^ 54)
  let opadKey := k1.map (fun b => b ^^^ 92)
  sha256 (opadKey ++ sha256 (ipadKey ++ msg))

/-- Lowercase hexadecimal digit. -/
def hexDigit : Nat → Char
  | 0 => '0' | 1 => '1' | 2 => '2' | 3 => '3'
  | 4 => '4' | 5 => '5' | 6 => '6' | 7 => '7'
  | 8 => '8' | 9 => '9' | 10 => 'a' | 11 => 'b'
  | 12 => 'c' | 13 => 'd' | 14 => 'e' | _ => 'f'

/-- Two-character lowercase hex rendering of one byte. -/
def byteHex (b : Nat) : List Char := [hexDigit (b / 16 % 16), hexDigit (b % 16)]

/-- Lowercase hex string of a byte list (`digest('hex')`). -/
def hexOfBytes (bs : List Nat) : List Char := bs.flatMap byteHex

/-- UTF-8 encoding of one character. -/
def charUtf8 (c : Char) : List Nat :=
  let n := c.toNat
  if n < 128 then [n]
  else if n < 2048 then [192 + n / 64, 128 + n % 64]
  else if n < 65536 then [224 + n / 4096, 128 + n / 64 % 64, 128 + n % 64]
  else [240 + n / 262144, 128 + n / 4096 % 64, 128 + n / 64 % 64, 128 + n % 64]

/-- UTF-8 bytes of a string (Node `Buffer.from(s, 'utf8')`). -/
def utf8Bytes (s : String) : List Nat := s.toList.flatMap charUtf8

/-- `crypto.createHmac('sha256', secret).update(payload).digest('hex')`. -/
def hmacSha256Hex (secret payload : String) : String :=
  String.mk (hexOfBytes (hmacSha256 (utf8Bytes secret) (utf8Bytes payload)))

/-! ## `verifyWebhookSignature` (src/SumsubApiClient.js, lines 140–176)

The function either returns `true` or throws; thrown `Error`s become
`Except.error`. JS falsiness of the optional string arguments
(`undefined` or `""`) is modelled by `isFalsy`. -/

instance {ε α : Type} [DecidableEq ε] [DecidableEq α] :
    DecidableEq (Except ε α) := fun a b =>
  match a, b with
  | .ok x, .ok y =>
    if h : x = y then .isTrue (by rw [h])
    else .isFalse (by intro hh; cases hh; exact h rfl)
  | .error x, .error y =>
    if h : x = y then .isTrue (by rw [h])
    else .isFalse (by intro hh; cases hh; exact h rfl)
  | .ok _, .error _ => .isFalse (by intro hh; cases hh)
  | .error _, .ok _ => .isFalse (by intro hh; cases hh)

/-- JS falsiness of an optional string: absent (`undefined`) or empty. -/
def isFalsy : Option String → Bool
  | none => true
  | some s => s == ""

/-- `crypto.timingSafeEqual` on two equal-length buffers: a fold over the
byte pairs that inspects every position (no short-circuit on the first
mismatch). -/
def timingSafeEq (a b : List Nat) : Bool :=
  (List.zip a b).foldl (fun acc p => acc && (p.1 == p.2)) true

/-- The `Error`s thrown by `verifyWebhookSignature`. -/
inductive VerifyError
  | missingSignature
  | invalidSignature
deriving DecidableEq

/-- The `message` of a `VerifyError`, as in the JS `new Error(...)`. -/
def VerifyError.message : VerifyError → String
  | .missingSignature => "Missing x-payload-digest header"
  | .invalidSignature => "Invalid webhook signature"

/-- `verifyWebhookSignature(rawBody, receivedSignature, webhookSecret)`:
skip (returning plain `true`) when the secret is falsy; throw on a
missing signature header; otherwise compare the received signature
against the hex HMAC-SHA-256 of the raw body, as UTF-8 buffers, length
first and then in constant time, throwing on mismatch. -/
def verifyWebhookSignature (rawBody : String) (receivedSignature : Option String)
    (webhookSecret : Option String) : Except VerifyError Bool :=
  if isFalsy webhookSecret then
    .ok true
  else if isFalsy receivedSignature then
    .error .missingSignature
  else
    let payload := rawBody
    let computedDigest := hmacSha256Hex (webhookSecret.getD "") payload
    let receivedBuffer := utf8Bytes (receivedSignature.getD "")
    let computedBuffer := utf8Bytes computedDigest
    if receivedBuffer.length != computedBuffer.length ||
        !(timingSafeEq receivedBuffer computedBuffer) then
      .error .invalidSignature
    else
      .ok true

/-! ## Webhook events and the status cache

`handleWebhookEvent` (src/SumsubApiClient.js, lines 179–279) and
`processWebhookEvent` (lines 282–324). The ambient clock is an explicit
`now : Nat`; the two axios collaborator calls (the Django forward and the
`handleNewApplicant` initiate call) are explicit outcome parameters. -/

/-- The `reviewResult` sub-object of a provider event; optional fields are
`Option`s (`undefined` when absent). -/
structure ReviewResult where
  reviewStatus : Option String
  rejectLabels : Option (List String)
  levelName : Option String
deriving DecidableEq

/-- A parsed provider webhook event (the payload of `handleWebhookEvent`).
`reviewResult` is `none` when the key is absent (the destructuring
default `reviewResult = {}` and the `?.` accesses then yield
`undefined`). -/
structure Event where
  type : String
  applicantId : String
  reviewResult : Option ReviewResult
  inspectionId : Option String
deriving DecidableEq

/-- JS `a || b` for an optional string: the default wins when the value is
absent (`undefined`) or empty (falsy). -/
def jsOrElse (v : Option String) (d : String) : String :=
  match v with
  | none => d
  | some s => if s = "" then d else s

/-- The composite-id marker `';externalUserId='`. -/
def marker : String := ";externalUserId="

/-- Subject-id recovery as written in `handleWebhookEvent`
(src/SumsubApiClient.js, lines 187–189):
`applicantId.includes(';externalUserId=') ?
 applicantId.split(';externalUserId=')[1] : applicantId`. -/
def extractExternalUserId (applicantId : String) : String :=
  if jsIncludesS applicantId marker then
    ((jsSplitS marker applicantId).get? 1).getD ""
  else
    applicantId

/-- The enhanced webhook payload built by `handleWebhookEvent`
(lines 192–209); this is also the shape cached per subject. -/
structure WebhookPayload where
  type : String
  applicantId : String
  externalUserId : String
  inspectionId : Option String
  reviewStatus : String
  reviewResult : Option ReviewResult
  levelName : String
  createdAt : Nat
  originalEvent : Event
deriving DecidableEq

/-- `webhookPayload` construction from the event at clock `now`. -/
def mkWebhookPayload (e : Event) (now : Nat) : WebhookPayload :=
  { type := e.type
    applicantId := e.applicantId
    externalUserId := extractExternalUserId e.applicantId
    inspectionId := e.inspectionId
    reviewStatus := jsOrElse (e.reviewResult.bind (·.reviewStatus)) "pending"
    reviewResult := e.reviewResult
    levelName := jsOrElse (e.reviewResult.bind (·.levelName)) "kyc_verification"
    createdAt := now
    originalEvent := e }

/-- Downstream (axios) success response. -/
structure DResp where
  status : Nat
  data : String
deriving DecidableEq

/-- Downstream (axios) failure: a thrown error with a message. -/
structure DErr where
  message : String
deriving DecidableEq

/-- Outcome of one axios call, supplied to a pipeline run as an oracle. -/
abbrev DOutcome := Except DErr DResp

/-- The value cached for a subject: the enhanced payload plus the Django
response and a processing timestamp (lines 238–242). -/
structure VerificationData where
  payload : WebhookPayload
  djangoResponse : String
  processedAt : Nat
deriving DecidableEq

/-- The process-wide `verificationCache` `Map`. -/
abbrev Cache := List (String × VerificationData)

/-- `Map.prototype.get`. -/
def cacheGet (c : Cache) (k : String) : Option VerificationData :=
  match c with
  | [] => none
  | (k', v) :: rest => if k' = k then some v else cacheGet rest k

/-- `Map.prototype.set`: replace in place if the key exists, else append. -/
def cacheSet (c : Cache) (k : String) (v : VerificationData) : Cache :=
  match c with
  | [] => [(k, v)]
  | (k', v') :: rest =>
    if k' = k then (k, v) :: rest else (k', v') :: cacheSet rest k v

/-- The cache-update step of `handleWebhookEvent` (lines 237–245): build
`verificationData` and `Map.set` it under the extracted external user
id. -/
def cacheUpsertFromEvent (c : Cache) (e : Event) (djangoData : String)
    (now : Nat) : Cache :=
  cacheSet c (extractExternalUserId e.applicantId)
    { payload := mkWebhookPayload e now
      djangoResponse := djangoData
      processedAt := now }

/-- A thrown JS error: either an explicit `new Error(message)` or the
`ReferenceError` raised by calling an identifier that is never defined. -/
inductive JsError
  | error (message : String)
  | referenceError (name : String)
deriving DecidableEq

/-- The `message` property of a thrown JS error. -/
def JsError.message : JsError → String
  | .error m => m
  | .referenceError n => n ++ " is not defined"

/-- `processWebhookEvent` (lines 282–324). `applicantReviewed` dispatches
to the two defined log-only handlers; `applicantCreated` calls
`handleNewApplicant`, whose axios call is the `initiateOutcome` oracle;
`applicantPending`, `applicantOnHold` and the default branch call
handlers that are never defined anywhere in the module, so they throw
`ReferenceError`s. -/
def processWebhookEvent (type : String) (reviewStatus : Option String)
    (initiateOutcome : DOutcome) : Except JsError Unit :=
  if type = "applicantReviewed" then
    match reviewStatus with
    | some "completed" => .ok ()
    | some "rejected" => .ok ()
    | _ => .ok ()
  else if type = "applicantPending" then
    .error (.referenceError "handlePendingVerification")
  else if type = "applicantCreated" then
    match initiateOutcome with
    | .error e => .error (.error e.message)
    | .ok resp =>
      if resp.status = 401 then
        .error (.error "Invalid Django service token - check .env configuration")
      else
        .ok ()
  else if type = "applicantOnHold" then
    .error (.referenceError "handleOnHoldVerification")
  else
    .error (.referenceError "handleUnknownEvent")

/-- The record of a call to `storeFailedWebhook` (a log-only stub): the
payload together with the failure message. -/
structure FailedWebhook where
  payload : WebhookPayload
  errorMessage : String
deriving DecidableEq

/-- The successful return value of `handleWebhookEvent` (lines 250–254). -/
structure HandlerOk where
  status : String
  djangoResponse : String
  verificationData : VerificationData
deriving DecidableEq

/-- Full observable outcome of one `handleWebhookEvent` run: the returned
or thrown value, the cache and failed-webhook store afterwards, and how
many forward attempts to the downstream system were made. -/
structure HandlerResult where
  result : Except JsError HandlerOk
  cache : Cache
  failedWebhooks : List FailedWebhook
  forwardAttempts : Nat
deriving DecidableEq

/-- `handleWebhookEvent(event)` (lines 179–279): build the enhanced
payload, attempt the axios forward to Django, and only on a successful
forward cache the verification data and run `processWebhookEvent`; any
thrown error inside the `try` is caught, recorded via
`storeFailedWebhook`, and rethrown enriched as
`Webhook processing failed: <message>`. -/
def handleWebhookEvent (c : Cache) (failed : List FailedWebhook) (e : Event)
    (now : Nat) (forwardOutcome initiateOutcome : DOutcome) : HandlerResult :=
  let payload := mkWebhookPayload e now
  match forwardOutcome with
  | .error err =>
    { result := .error (.error ("Webhook processing failed: " ++ err.message))
      cache := c
      failedWebhooks := failed ++ [⟨payload, err.message⟩]
      forwardAttempts := 1 }
  | .ok resp =>
    let c' := cacheUpsertFromEvent c e resp.data now
    match processWebhookEvent e.type (e.reviewResult.bind (·.reviewStatus))
        initiateOutcome with
    | .ok () =>
      { result := .ok
          { status := "processed"
            djangoResponse := resp.data
            verificationData :=
              { payload := payload, djangoResponse := resp.data
                processedAt := now } }
        cache := c'
        failedWebhooks := failed
        forwardAttempts := 1 }
    | .error pe =>
      { result := .error (.error ("Webhook processing failed: " ++ pe.message))
        cache := c'
        failedWebhooks := failed ++ [⟨payload, pe.message⟩]
        forwardAttempts := 1 }

/-! ## The webhook HTTP endpoints

`app.post('/sumsub-webhook')` in `server.js` (lines 64–150) and in the
`unnamed/part_001` server variant (lines 16–56). The body of the response
is either plain text (`res.send`) or a JSON error object (`res.json` with
an `error` key). `JSON.parse` of the raw body is an oracle
(`parseOutcome`), as is each axios call. -/

/-- An HTTP response body: `res.send(text)` or `res.json({error: …})`. -/
inductive ResponseBody
  | text (s : String)
  | jsonError (message : String)
deriving DecidableEq

/-- An HTTP response: status code plus body. -/
structure HttpResponse where
  status : Nat
  body : ResponseBody
deriving DecidableEq

/-- The observable outcome of one endpoint invocation: the response, the
cache and the two failed-webhook stores afterwards (the module-level one
written by `handleWebhookEvent`, and `server.js`'s own
`storeFailedWebhook(payload)` which logs the parsed event), and the
number of forward attempts made to the downstream system-of-record. -/
structure EndpointResult where
  response : HttpResponse
  cache : Cache
  failedWebhooks : List FailedWebhook
  serverFailedWebhooks : List Event
  forwardAttempts : Nat
deriving DecidableEq

/-- In `server.js` (line 102) the async `verifyWebhookSignature` is called
WITHOUT `await`, so `isValid` holds a pending `Promise` object. A
`Promise` is an object and objects are always truthy in JS, regardless of
the verification outcome the promise eventually settles with — so
`if (!isValid)` can never take its branch. -/
def promiseIsTruthy (_pendingResult : Except VerifyError Bool) : Bool := true

/-- The outer `catch` of `server.js`'s webhook endpoint (lines 137–148):
403 when the error message mentions an invalid webhook signature,
otherwise HTTP 200 carrying the error in the body. -/
def serverCatchResponse (message : String) : HttpResponse :=
  if jsIncludesS message "Invalid webhook signature" then
    ⟨403, .jsonError message⟩
  else
    ⟨200, .jsonError message⟩

/-- `app.post('/sumsub-webhook')` in `server.js` (lines 64–150). The
secret-unset guard throws; debug mode bypasses verification; otherwise
the un-awaited verification promise is truthy and the guard at line 103
is dead, after which the payload is parsed and handed to
`handleWebhookEvent`; the Django forward of its result gets an inner
try/catch that stores the payload and still answers 200. -/
def serverWebhookEndpoint (webhookSecret : Option String)
    (debugWebhook : Bool) (rawBody : String)
    (receivedSignature : Option String) (parseOutcome : Option Event)
    (c : Cache) (failed : List FailedWebhook) (now : Nat)
    (forwardOutcome initiateOutcome djangoOutcome : DOutcome) :
    EndpointResult :=
  if isFalsy webhookSecret then
    ⟨serverCatchResponse "SUMSUB_WEBHOOK_SECRET is not configured",
     c, failed, [], 0⟩
  else if debugWebhook then
    match parseOutcome with
    | none =>
      ⟨serverCatchResponse "Unexpected token in JSON", c, failed, [], 0⟩
    | some ev =>
      let hr := handleWebhookEvent c failed ev now forwardOutcome
        initiateOutcome
      match hr.result with
      | .error e =>
        ⟨serverCatchResponse e.message, hr.cache, hr.failedWebhooks, [],
         hr.forwardAttempts⟩
      | .ok _ =>
        match djangoOutcome with
        | .error de =>
          ⟨serverCatchResponse de.message, hr.cache, hr.failedWebhooks, [],
           hr.forwardAttempts⟩
        | .ok _ =>
          ⟨⟨200, .text "Webhook received (debug mode)"⟩, hr.cache,
           hr.failedWebhooks, [], hr.forwardAttempts⟩
  else
    let pendingVerification :=
      verifyWebhookSignature rawBody receivedSignature webhookSecret
    if !(promiseIsTruthy pendingVerification) then
      ⟨⟨403, .jsonError "Invalid webhook signature"⟩, c, failed, [], 0⟩
    else
      match parseOutcome with
      | none =>
        ⟨serverCatchResponse "Unexpected token in JSON", c, failed, [], 0⟩
      | some ev =>
        let hr := handleWebhookEvent c failed ev now forwardOutcome
          initiateOutcome
        match hr.result with
        | .error e =>
          ⟨serverCatchResponse e.message, hr.cache, hr.failedWebhooks, [],
           hr.forwardAttempts⟩
        | .ok _ =>
          match djangoOutcome with
          | .error _ =>
            ⟨⟨200, .jsonError "Webhook received but Django processing failed"⟩,
             hr.cache, hr.failedWebhooks, [ev], hr.forwardAttempts⟩
          | .ok _ =>
            ⟨⟨200, .text "Webhook processed successfully"⟩, hr.cache,
             hr.failedWebhooks, [], hr.forwardAttempts⟩

/-- `app.post('/sumsub-webhook')` in the `unnamed/part_001` server variant
(lines 16–56). This variant DOES `await` the verification, so a thrown
verification error reaches the catch; but its single catch turns every
error — including a failed downstream forward — into HTTP 400. -/
def part001WebhookEndpoint (webhookSecret : Option String)
    (debugWebhook : Bool) (rawBody : String)
    (receivedSignature : Option String) (parseOutcome : Option Event)
    (c : Cache) (failed : List FailedWebhook) (now : Nat)
    (forwardOutcome initiateOutcome verificationsOutcome : DOutcome) :
    EndpointResult :=
  if debugWebhook then
    match parseOutcome with
    | none => ⟨⟨400, .jsonError "Unexpected token in JSON"⟩, c, failed, [], 0⟩
    | some ev =>
      let hr := handleWebhookEvent c failed ev now forwardOutcome
        initiateOutcome
      match hr.result with
      | .error e =>
        ⟨⟨400, .jsonError e.message⟩, hr.cache, hr.failedWebhooks, [],
         hr.forwardAttempts⟩
      | .ok _ =>
        match verificationsOutcome with
        | .error de =>
          ⟨⟨400, .jsonError de.message⟩, hr.cache, hr.failedWebhooks, [],
           hr.forwardAttempts⟩
        | .ok _ =>
          ⟨⟨200, .text "Webhook received (debug mode)"⟩, hr.cache,
           hr.failedWebhooks, [], hr.forwardAttempts⟩
  else
    match verifyWebhookSignature rawBody receivedSignature webhookSecret with
    | .error e => ⟨⟨400, .jsonError e.message⟩, c, failed, [], 0⟩
    | .ok isValid =>
      if !isValid then
        ⟨⟨400, .jsonError "Invalid webhook signature"⟩, c, failed, [], 0⟩
      else
        match parseOutcome with
        | none =>
          ⟨⟨400, .jsonError "Unexpected token in JSON"⟩, c, failed, [], 0⟩
        | some ev =>
          let hr := handleWebhookEvent c failed ev now forwardOutcome
            initiateOutcome
          match hr.result with
          | .error e =>
            ⟨⟨400, .jsonError e.message⟩, hr.cache, hr.failedWebhooks, [],
             hr.forwardAttempts⟩
          | .ok _ =>
            match verificationsOutcome with
            | .error de =>
              ⟨⟨400, .jsonError de.message⟩, hr.cache, hr.failedWebhooks, [],
               hr.forwardAttempts⟩
            | .ok _ =>
              ⟨⟨200, .text "Webhook received"⟩, hr.cache, hr.failedWebhooks,
               [], hr.forwardAttempts⟩

/-! ## Concrete fixtures

Concrete inputs used by the closed witness and counterexample theorems. -/

/-- The reviewed-and-completed event from the spec's test scenario:
`{type: "applicantReviewed", applicantId: "app_1;externalUserId=user_42",
reviewResult: {reviewStatus: "completed"}}`. -/
def exEvent : Event :=
  { type := "applicantReviewed"
    applicantId := "app_1;externalUserId=user_42"
    reviewResult := some ⟨some "completed", none, none⟩
    inspectionId := none }

/-- An event carrying an unrecognized provider type. -/
def bogusEvent : Event :=
  { type := "applicantBogus"
    applicantId := "app_1;externalUserId=user_42"
    reviewResult := none
    inspectionId := none }

/-- An event whose applicant identifier ends at the composite-id marker. -/
def truncatedIdEvent : Event :=
  { type := "applicantReviewed"
    applicantId := "app_1;externalUserId="
    reviewResult := some ⟨some "completed", none, none⟩
    inspectionId := none }

/-- A downstream timeout failure (axios timeout on the Django forward). -/
def exForwardTimeout : DErr := ⟨"timeout of 40000ms exceeded"⟩

/-- A successful downstream response. -/
def exResp : DResp := ⟨200, "ok"⟩

/-! ### Digest-shape and verifier lemmas -/

theorem sha256_length (msg : List Nat) : (sha256 msg).length = 32 := by
  simp [sha256, word32Bytes]

theorem hmacSha256_length (key msg : List Nat) :
    (hmacSha256 key msg).length = 32 := by
  simp [hmacSha256, sha256_length]

theorem byteHex_length (b : Nat) : (byteHex b).length = 2 := rfl

theorem hexOfBytes_length (bs : List Nat) :
    (hexOfBytes bs).length = 2 * bs.length := by
  induction bs with
  | nil => rfl
  | cons b t ih =>
    simp only [hexOfBytes, List.flatMap_cons, List.length_append] at ih ⊢
    rw [ih, byteHex_length, List.length_cons]
    omega

theorem hmacSha256Hex_length (S P : String) :
    (hmacSha256Hex S P).length = 64 := by
  show (hexOfBytes (hmacSha256 (utf8Bytes S) (utf8Bytes P))).length = 64
  rw [hexOfBytes_length, hmacSha256_length]

theorem hexDigit_ascii (n : Nat) : (hexDigit n).toNat < 128 := by
  unfold hexDigit
  split <;> decide

theorem mem_byteHex_ascii {c : Char} {b : Nat} (h : c ∈ byteHex b) :
    c.toNat < 128 := by
  simp only [byteHex, List.mem_cons, List.not_mem_nil, or_false] at h
  rcases h with h | h <;> (subst h; exact hexDigit_ascii _)

theorem mem_hexOfBytes_ascii {c : Char} {bs : List Nat}
    (h : c ∈ hexOfBytes bs) : c.toNat < 128 := by
  simp only [hexOfBytes, List.mem_flatMap] at h
  obtain ⟨b, _, hc⟩ := h
  exact mem_byteHex_ascii hc

theorem charUtf8_ascii_length {c : Char} (h : c.toNat < 128) :
    (charUtf8 c).length = 1 := by
  simp [charUtf8, h]

theorem flatMap_charUtf8_ascii_length {l : List Char}
    (h : ∀ c ∈ l, c.toNat < 128) :
    (l.flatMap charUtf8).length = l.length := by
  induction l with
  | nil => rfl
  | cons c t ih =>
    simp only [List.flatMap_cons, List.length_append, List.length_cons]
    rw [charUtf8_ascii_length (h c (by simp)),
        ih (fun x hx => h x (by simp [hx]))]
    omega

theorem utf8Bytes_hmacSha256Hex_length (S P : String) :
    (utf8Bytes (hmacSha256Hex S P)).length = 64 := by
  have hascii : ∀ c ∈ (hmacSha256Hex S P).toList, c.toNat < 128 := by
    intro c hc
    exact @mem_hexOfBytes_ascii c (hmacSha256 (utf8Bytes S) (utf8Bytes P)) hc
  show ((hmacSha256Hex S P).toList.flatMap charUtf8).length = 64
  rw [flatMap_charUtf8_ascii_length hascii]
  exact hmacSha256Hex_length S P

theorem utf8Bytes_append (s t : String) :
    utf8Bytes (s ++ t) = utf8Bytes s ++ utf8Bytes t := by
  show (s ++ t).data.flatMap charUtf8 = s.data.flatMap charUtf8 ++ t.data.flatMap charUtf8
  rw [String.data_append, List.flatMap_append]

theorem hmacSha256Hex_ne_empty (S P : String) : hmacSha256Hex S P ≠ "" := by
  intro h
  have := hmacSha256Hex_length S P
  rw [h] at this
  simp at this

theorem timingSafeEq_self (l : List Nat) : timingSafeEq l l = true := by
  show (List.zip l l).foldl (fun acc p => acc && (p.1 == p.2)) true = true
  induction l with
  | nil => rfl
  | cons x t ih => simpa using ih

/-- A correctly computed signature verifies: for every payload and
non-empty secret, the hex HMAC digest is accepted. -/
theorem verify_correct_signature (P S : String) (hS : S ≠ "") :
    verifyWebhookSignature P (some (hmacSha256Hex S P)) (some S) =
      .ok true := by
  unfold verifyWebhookSignature
  simp only [isFalsy, beq_eq_false_iff_ne, Option.getD_some]
  rw [if_neg (by simp [hS]), if_neg (by simp [hmacSha256Hex_ne_empty S P])]
  simp [timingSafeEq_self]

/-- A claimed signature whose UTF-8 byte length is not 64 is rejected by a
thrown `Invalid webhook signature` error. -/
theorem verify_wrong_length (P S sig : String) (hS : S ≠ "")
    (hsig : sig ≠ "") (hlen : (utf8Bytes sig).length ≠ 64) :
    verifyWebhookSignature P (some sig) (some S) =
      .error .invalidSignature := by
  unfold verifyWebhookSignature
  simp only [isFalsy, Option.getD_some]
  rw [if_neg (by simp [hS]), if_neg (by simp [hsig])]
  rw [if_pos]
  have h64 := utf8Bytes_hmacSha256Hex_length S P
  simp [h64, hlen]

/-- Appending any extra character to the correct digest is rejected by a
thrown `Invalid webhook signature` error. -/
theorem verify_appended_char (P S : String) (x : Char) (hS : S ≠ "") :
    verifyWebhookSignature P (some (hmacSha256Hex S P ++ String.mk [x]))
      (some S) = .error .invalidSignature := by
  apply verify_wrong_length P S _ hS
  · intro h
    have : (hmacSha256Hex S P ++ String.mk [x]).length = 0 := by rw [h]; rfl
    rw [String.length_append, hmacSha256Hex_length] at this
    omega
  · rw [utf8Bytes_append, List.length_append, utf8Bytes_hmacSha256Hex_length]
    intro h
    have hx : (utf8Bytes (String.mk [x])).length = 0 := by omega
    have : 1 ≤ (utf8Bytes (String.mk [x])).length := by
      show 1 ≤ ([x].flatMap charUtf8).length
      simp only [List.flatMap_cons, List.flatMap_nil, List.append_nil, charUtf8]
      split
      · simp
      · split
        · simp
        · split <;> simp
    omega

/-! ### Cache and handler lemmas -/

theorem cacheGet_cacheSet (c : Cache) (k : String) (v : VerificationData) :
    cacheGet (cacheSet c k v) k = some v := by
  induction c with
  | nil => simp [cacheSet, cacheGet]
  | cons kv rest ih =>
    by_cases h : kv.1 = k <;> simp [cacheSet, cacheGet, h, ih]

theorem processWebhookEvent_reviewed (rs : Option String) (initOut : DOutcome) :
    processWebhookEvent "applicantReviewed" rs initOut = .ok () := by
  unfold processWebhookEvent
  rw [if_pos rfl]
  split <;> rfl

/-- On a failed forward, `handleWebhookEvent` leaves the cache untouched,
records the failure, and throws the enriched error. -/
theorem handleWebhookEvent_forward_failed (c : Cache)
    (failed : List FailedWebhook) (e : Event) (now : Nat) (err : DErr)
    (initOut : DOutcome) :
    handleWebhookEvent c failed e now (.error err) initOut =
      { result := .error (.error ("Webhook processing failed: " ++ err.message))
        cache := c
        failedWebhooks := failed ++ [⟨mkWebhookPayload e now, err.message⟩]
        forwardAttempts := 1 } := rfl

/-- On a successful forward of an `applicantReviewed` event,
`handleWebhookEvent` caches the verification data and returns the
processed result. -/
theorem handleWebhookEvent_reviewed_ok (c : Cache)
    (failed : List FailedWebhook) (e : Event) (he : e.type = "applicantReviewed")
    (now : Nat) (resp : DResp) (initOut : DOutcome) :
    handleWebhookEvent c failed e now (.ok resp) initOut =
      { result := .ok
          { status := "processed"
            djangoResponse := resp.data
            verificationData :=
              { payload := mkWebhookPayload e now, djangoResponse := resp.data
                processedAt := now } }
        cache := cacheUpsertFromEvent c e resp.data now
        failedWebhooks := failed
        forwardAttempts := 1 } := by
  unfold handleWebhookEvent
  rw [he, processWebhookEvent_reviewed]

/-! ### Subject-id extraction lemmas -/

theorem isPrefixOf_append_self (l r : List Char) :
    l.isPrefixOf (l ++ r) = true := by
  induction l with
  | nil => simp [List.isPrefixOf]
  | cons c t ih =>
    rw [List.cons_append, List.isPrefixOf_cons₂, beq_self_eq_true,
      Bool.true_and, ih]

theorem jsIncludes_append_sep (p sep r : List Char) :
    jsIncludes (p ++ (sep ++ r)) sep = true := by
  induction p with
  | nil =>
    rw [List.nil_append, jsIncludes.eq_def]
    dsimp only
    have h : sep.isPrefixOf (sep ++ r) = true := isPrefixOf_append_self sep r
    rw [h, if_pos rfl]
  | cons c p ih =>
    rw [List.cons_append, jsIncludes.eq_def]
    dsimp only
    split
    · rfl
    · exact ih

theorem jsSplitFuel_no_semicolon (sepTail s : List Char) (hs : ';' ∉ s) :
    ∀ fuel : Nat, s.length ≤ fuel →
      jsSplitFuel (';' :: sepTail) fuel s = [s] := by
  induction s with
  | nil => intro fuel _; cases fuel <;> rfl
  | cons c rest ih =>
    intro fuel hf
    have hc : c ≠ ';' := fun h => hs (h ▸ List.mem_cons_self c rest)
    cases fuel with
    | zero => simp at hf
    | succ f =>
      rw [jsSplitFuel]
      have hbeq : (';' == c) = false :=
        beq_eq_false_iff_ne.mpr (fun h => hc h.symm)
      have hpre : (';' :: sepTail).isPrefixOf (c :: rest) = false := by
        rw [List.isPrefixOf_cons₂, hbeq, Bool.false_and]
      rw [hpre, if_neg Bool.false_ne_true]
      have hrest : ';' ∉ rest := fun h => hs (List.mem_cons_of_mem c h)
      rw [ih hrest f (Nat.le_of_succ_le_succ hf)]

theorem jsSplitFuel_single_sep (sepTail : List Char) :
    ∀ (p r : List Char), ';' ∉ p → ';' ∉ r →
    ∀ fuel : Nat, (p ++ ';' :: (sepTail ++ r)).length ≤ fuel →
      jsSplitFuel (';' :: sepTail) fuel (p ++ ';' :: (sepTail ++ r)) =
        [p, r] := by
  intro p
  induction p with
  | nil =>
    intro r _ hr fuel hf
    rw [List.nil_append] at hf ⊢
    cases fuel with
    | zero => simp at hf
    | succ f =>
      rw [jsSplitFuel]
      have hpre : (';' :: sepTail).isPrefixOf (';' :: (sepTail ++ r)) = true := by
        rw [List.isPrefixOf_cons₂, beq_self_eq_true, Bool.true_and]
        exact isPrefixOf_append_self sepTail r
      rw [hpre, if_pos rfl]
      have hdrop : List.drop ((';' :: sepTail).length - 1) (sepTail ++ r) = r := by
        simp only [List.length_cons, Nat.add_sub_cancel]
        exact List.drop_left sepTail r
      rw [hdrop]
      have hfr : r.length ≤ f := by
        simp only [List.length_cons, List.length_append] at hf
        omega
      rw [jsSplitFuel_no_semicolon sepTail r hr f hfr]
  | cons c p ih =>
    intro r hp hr fuel hf
    have hc : c ≠ ';' := fun h => hp (h ▸ List.mem_cons_self c p)
    rw [List.cons_append] at hf ⊢
    cases fuel with
    | zero => simp at hf
    | succ f =>
      rw [jsSplitFuel]
      have hbeq : (';' == c) = false :=
        beq_eq_false_iff_ne.mpr (fun h => hc h.symm)
      have hpre : (';' :: sepTail).isPrefixOf
          (c :: (p ++ ';' :: (sepTail ++ r))) = false := by
        rw [List.isPrefixOf_cons₂, hbeq, Bool.false_and]
      rw [hpre, if_neg Bool.false_ne_true]
      have hp' : ';' ∉ p := fun h => hp (List.mem_cons_of_mem c h)
      have hf' : (p ++ ';' :: (sepTail ++ r)).length ≤ f := by
        simp only [List.length_cons] at hf
        omega
      rw [ih r hp' hr f hf']

/-- The marker's character list starts with `';'`. -/
theorem marker_toList :
    marker.toList = ';' :: "externalUserId=".toList := rfl

theorem jsSplit_single_marker (p r : List Char) (hp : ';' ∉ p)
    (hr : ';' ∉ r) :
    jsSplit marker.toList (p ++ marker.toList ++ r) = [p, r] := by
  rw [marker_toList, List.append_assoc, List.cons_append]
  exact jsSplitFuel_single_sep _ p r hp hr _ (Nat.le_refl _)

/-- Subject-id extraction on an identifier with exactly one marker
occurrence: the whole remainder after the marker is returned. -/
theorem extractExternalUserId_single_marker (p r : String)
    (hp : ';' ∉ p.toList) (hr : ';' ∉ r.toList) :
    extractExternalUserId (p ++ marker ++ r) = r := by
  unfold extractExternalUserId
  have hdata : (p ++ marker ++ r).toList =
      p.toList ++ marker.toList ++ r.toList := by
    show (p ++ marker ++ r).data = p.data ++ marker.data ++ r.data
    rw [String.data_append, String.data_append]
  have hinc : jsIncludesS (p ++ marker ++ r) marker = true := by
    unfold jsIncludesS
    rw [hdata, List.append_assoc]
    exact jsIncludes_append_sep p.toList marker.toList r.toList
  rw [hinc, if_pos rfl]
  unfold jsSplitS
  rw [hdata, jsSplit_single_marker p.toList r.toList hp hr]
  rfl

/-- Subject-id extraction when the marker is absent: the identifier is
returned unchanged. -/
theorem extractExternalUserId_no_marker (id : String)
    (h : jsIncludesS id marker = false) :
    extractExternalUserId id = id := by
  unfold extractExternalUserId
  rw [h, if_neg Bool.false_ne_true]

/-! ## Claim theorems -/

/-- Claim C1, counterexample: for the spec's own scenario — a valid
`applicantReviewed` event for `user_42` whose downstream forward times
out — the status cache holds NO record for `user_42` afterwards, contrary
to the claim that the cache update precedes the forward attempt and so
survives a downstream failure. -/
theorem C1_counterexample :
    cacheGet (handleWebhookEvent [] [] exEvent 0 (.error exForwardTimeout)
      (.ok exResp)).cache "user_42" = none := rfl

/-- Claim C1 (amended): in `handleWebhookEvent` the forward attempt to the
downstream system-of-record comes FIRST; the status cache is updated only
after a successful forward. Whenever the forward fails, the cache is left
exactly as it was (no record of the provider's claim), the failed webhook
is recorded, and an enriched error is thrown. -/
theorem C1_forward_precedes_cache_update (c : Cache)
    (failed : List FailedWebhook) (e : Event) (now : Nat) (err : DErr)
    (initOut : DOutcome) :
    (handleWebhookEvent c failed e now (.error err) initOut).cache = c ∧
    (handleWebhookEvent c failed e now (.error err) initOut).result =
      .error (.error ("Webhook processing failed: " ++ err.message)) ∧
    (handleWebhookEvent c failed e now (.error err) initOut).failedWebhooks =
      failed ++ [⟨mkWebhookPayload e now, err.message⟩] := by
  rw [handleWebhookEvent_forward_failed]
  exact ⟨rfl, rfl, rfl⟩

/-- Claim C2, counterexample: with the webhook secret unset, verification
returns plain `.ok true` for an arbitrary claimed signature — the very
same value a genuinely matching signature produces — so no distinguishable
`VerificationSkipped` outcome is signalled. -/
theorem C2_counterexample :
    verifyWebhookSignature "p" (some "sig") none = .ok true ∧
    verifyWebhookSignature "payload"
      (some (hmacSha256Hex "secret" "payload")) (some "secret") = .ok true :=
  ⟨rfl, verify_correct_signature "payload" "secret" (by decide)⟩

/-- Claim C2 (amended): when the shared secret is unset (or empty),
`verifyWebhookSignature` silently accepts: it returns plain `true`,
indistinguishable from a signature match. Separately, `server.js`'s
endpoint refuses to run at all with an unset secret, throwing a
configuration error that its catch turns into an HTTP 200 error body
before any verification or processing happens. -/
theorem C2_unset_secret_plain_success (raw : String) (sig : Option String)
    (debug : Bool) (parse : Option Event) (c : Cache)
    (failed : List FailedWebhook) (now : Nat) (fo initOut dj : DOutcome) :
    verifyWebhookSignature raw sig none = .ok true ∧
    verifyWebhookSignature raw sig (some "") = .ok true ∧
    serverWebhookEndpoint none debug raw sig parse c failed now fo initOut dj =
      ⟨⟨200, .jsonError "SUMSUB_WEBHOOK_SECRET is not configured"⟩,
       c, failed, [], 0⟩ :=
  ⟨rfl, rfl, rfl⟩

/-- Claim C7, counterexample: applying the cache update twice with the
identical canonical event (at clock 0 then clock 1) yields a record whose
`createdAt` is 1 — the second application's time — not the preserved
`createdAt` 0 of the first application. -/
theorem C7_counterexample :
    (((cacheGet (cacheUpsertFromEvent (cacheUpsertFromEvent [] exEvent "ok" 0)
          exEvent "ok" 1) "user_42").map (fun v => v.payload.createdAt) ==
        some 0) = false) ∧
    (cacheGet (cacheUpsertFromEvent [] exEvent "ok" 0) "user_42").map
        (fun v => v.payload.createdAt) = some 0 := by
  constructor <;> rfl

/-- Claim C7 (amended): the cache update is a wholesale `Map.set` replace:
applying the same canonical event twice leaves a record equal to a single
application's record in every field except the timestamps — `createdAt`
and `processedAt` are both refreshed to the second application's clock
(there is no `updatedAt` field, and `createdAt` is overwritten, not
preserved). -/
theorem C7_second_upsert_overwrites (c : Cache) (e : Event) (d : String)
    (n1 n2 : Nat) :
    cacheGet (cacheUpsertFromEvent (cacheUpsertFromEvent c e d n1) e d n2)
        (extractExternalUserId e.applicantId) =
      some ⟨mkWebhookPayload e n2, d, n2⟩ ∧
    { mkWebhookPayload e n2 with createdAt := 0 } =
      { mkWebhookPayload e n1 with createdAt := 0 } := by
  refine ⟨?_, rfl⟩
  exact cacheGet_cacheSet _ _ _

/-- Claim C8, code evaluation at the failing input: an authenticated event
of unknown type `"applicantBogus"` whose forward succeeded makes
`processWebhookEvent`'s default branch call `handleUnknownEvent` — an
identifier never defined in the module — so a `ReferenceError` is thrown,
the whole webhook is recorded as failed, and the enriched error is
rethrown; no `UnknownEventType` signal or `Unclassified` passthrough
event exists. -/
theorem C8_unknown_event_reference_error :
    (handleWebhookEvent [] [] bogusEvent 0 (.ok exResp) (.ok exResp)).result =
      .error (.error
        "Webhook processing failed: handleUnknownEvent is not defined") ∧
    (handleWebhookEvent [] [] bogusEvent 0 (.ok exResp)
        (.ok exResp)).failedWebhooks =
      [⟨mkWebhookPayload bogusEvent 0, "handleUnknownEvent is not defined"⟩] := by
  constructor <;> rfl

/-- Claim C10: `verifyWebhookSignature` never returns `false` — every run
either returns `true` (secret unset, or signature match) or throws; a
caller that only branches on the boolean return value can therefore never
observe a verification failure. -/
theorem C10_verify_never_returns_false (raw : String)
    (sig secret : Option String) :
    verifyWebhookSignature raw sig secret = .ok true ∨
    ∃ e : VerifyError, verifyWebhookSignature raw sig secret = .error e := by
  unfold verifyWebhookSignature
  split_ifs with h1 h2
  · exact .inl rfl
  · exact .inr ⟨.missingSignature, rfl⟩
  · dsimp only
    split
    · exact .inr ⟨.invalidSignature, rfl⟩
    · exact .inl rfl

/-- Claim C6, counterexample: on an applicant identifier in which the
marker occurs twice, the code takes only the segment between the first
and second occurrences (`"b"`), not the entire remainder after the first
occurrence (`"b;externalUserId=c"`). -/
theorem C6_counterexample :
    extractExternalUserId "a;externalUserId=b;externalUserId=c" = "b" ∧
    ((extractExternalUserId "a;externalUserId=b;externalUserId=c" ==
        "b;externalUserId=c") = false) := by
  constructor <;> rfl

/-- Claim C6 (amended): if the marker is absent, the applicant identifier
itself is the subjectId; if the marker is present, the subjectId is
element 1 of the JS split — the segment strictly between the first and
second marker occurrences. That equals the entire remainder of the string
exactly when the marker occurs only once (in particular whenever neither
surrounding part contains `';'`). -/
theorem C6_subject_id_is_second_segment :
    (∀ id : String, jsIncludesS id marker = false →
      extractExternalUserId id = id) ∧
    (∀ p r : String, ';' ∉ p.toList → ';' ∉ r.toList →
      extractExternalUserId (p ++ marker ++ r) = r) :=
  ⟨fun id h => extractExternalUserId_no_marker id h,
   fun p r hp hr => extractExternalUserId_single_marker p r hp hr⟩

/-- Claim C6, witness: the amended theorem applied at a marker-free
identifier and at a single-marker identifier. -/
theorem C6_subject_id_is_second_segment_witness :
    extractExternalUserId "plain_user" = "plain_user" ∧
    extractExternalUserId ("app_1" ++ marker ++ "user_42") = "user_42" :=
  ⟨C6_subject_id_is_second_segment.1 "plain_user" (by decide),
   C6_subject_id_is_second_segment.2 "app_1" "user_42" (by decide) (by decide)⟩

/-- Claim C9, counterexample: for an applicant identifier that ends at the
marker, normalization does NOT fail closed with `MissingSubjectId`: the
extracted subjectId is the empty string, the handler succeeds, and the
verification data is cached under the empty-string key. -/
theorem C9_counterexample :
    extractExternalUserId "app_1;externalUserId=" = "" ∧
    (handleWebhookEvent [] [] truncatedIdEvent 0 (.ok exResp)
        (.ok exResp)).result =
      .ok { status := "processed", djangoResponse := "ok",
            verificationData :=
              { payload := mkWebhookPayload truncatedIdEvent 0
                djangoResponse := "ok", processedAt := 0 } } ∧
    cacheGet (handleWebhookEvent [] [] truncatedIdEvent 0 (.ok exResp)
        (.ok exResp)).cache "" =
      some { payload := mkWebhookPayload truncatedIdEvent 0
             djangoResponse := "ok", processedAt := 0 } := by
  refine ⟨rfl, rfl, rfl⟩

/-- Claim C9 (amended): there is no `MissingSubjectId` check anywhere —
for every applicant identifier that ends at the marker (no recoverable
external id), the subjectId is the empty string and the event is
processed normally. -/
theorem C9_empty_subject_id_processed (p : String) (hp : ';' ∉ p.toList)
    (c : Cache) (failed : List FailedWebhook) (rr : Option ReviewResult)
    (iid : Option String) (resp : DResp) (now : Nat) (initOut : DOutcome) :
    extractExternalUserId (p ++ marker) = "" ∧
    (handleWebhookEvent c failed
        { type := "applicantReviewed", applicantId := p ++ marker,
          reviewResult := rr, inspectionId := iid } now (.ok resp) initOut).result =
      .ok { status := "processed", djangoResponse := resp.data,
            verificationData :=
              { payload := mkWebhookPayload
                  { type := "applicantReviewed", applicantId := p ++ marker,
                    reviewResult := rr, inspectionId := iid } now
                djangoResponse := resp.data, processedAt := now } } := by
  constructor
  · have h := extractExternalUserId_single_marker p "" hp
      (by intro hmem; simp at hmem)
    rwa [String.append_empty] at h
  · rw [handleWebhookEvent_reviewed_ok c failed _ rfl now resp initOut]

/-- Claim C9, witness: the amended theorem at the concrete identifier
`"app_1;externalUserId="`. -/
theorem C9_empty_subject_id_processed_witness :
    extractExternalUserId ("app_1" ++ marker) = "" ∧
    (handleWebhookEvent [] []
        { type := "applicantReviewed", applicantId := "app_1" ++ marker,
          reviewResult := some ⟨some "completed", none, none⟩,
          inspectionId := none } 0 (.ok ⟨200, "ok"⟩) (.ok ⟨200, "ok"⟩)).result =
      .ok { status := "processed", djangoResponse := "ok",
            verificationData :=
              { payload := mkWebhookPayload
                  { type := "applicantReviewed", applicantId := "app_1" ++ marker,
                    reviewResult := some ⟨some "completed", none, none⟩,
                    inspectionId := none } 0
                djangoResponse := "ok", processedAt := 0 } } :=
  C9_empty_subject_id_processed "app_1" (by decide) [] []
    (some ⟨some "completed", none, none⟩) none ⟨200, "ok"⟩ 0 (.ok ⟨200, "ok"⟩)

/-- Claim C5, counterexample: verifying a payload against the correct
digest with an extra character appended does not return `false` — the
function throws an `Invalid webhook signature` error instead (it has no
`false` return path at all). -/
theorem C5_counterexample :
    verifyWebhookSignature "payload"
      (some (hmacSha256Hex "secret" "payload" ++ "x")) (some "secret") =
      .error .invalidSignature :=
  verify_appended_char "payload" "secret" 'x' (by decide)

/-- Claim C5 (amended): for every payload `P` and non-empty secret `S`,
verifying `P` against the hex HMAC-SHA-256 of `P` under `S` returns
`true`, and verifying `P` against that digest with an extra character
appended throws `Invalid webhook signature` (rather than returning
`false`). -/
theorem C5_verify_roundtrip (P S : String) (hS : S ≠ "") :
    verifyWebhookSignature P (some (hmacSha256Hex S P)) (some S) =
      .ok true ∧
    verifyWebhookSignature P (some (hmacSha256Hex S P ++ "x")) (some S) =
      .error .invalidSignature :=
  ⟨verify_correct_signature P S hS, verify_appended_char P S 'x' hS⟩

/-- Claim C5, witness: the amended theorem at payload `"payload"` and
secret `"secret"`. -/
theorem C5_verify_roundtrip_witness :
    verifyWebhookSignature "payload"
      (some (hmacSha256Hex "secret" "payload")) (some "secret") = .ok true ∧
    verifyWebhookSignature "payload"
      (some (hmacSha256Hex "secret" "payload" ++ "x")) (some "secret") =
      .error .invalidSignature :=
  C5_verify_roundtrip "payload" "secret" (by decide)

/-- `server.js`'s endpoint when the configured-secret guard passes, debug
mode is off, the payload parses, and the handler's forward fails: the
outcome is the outer-catch response for the enriched error, with the
cache untouched and the failure recorded. -/
theorem serverEndpoint_forward_failed (secret : String) (hS : secret ≠ "")
    (raw : String) (sig : Option String) (ev : Event) (c : Cache)
    (failed : List FailedWebhook) (now : Nat) (err : DErr) (initOut dj : DOutcome) :
    serverWebhookEndpoint (some secret) false raw sig (some ev) c failed now
        (.error err) initOut dj =
      ⟨serverCatchResponse ("Webhook processing failed: " ++ err.message),
       c, failed ++ [⟨mkWebhookPayload ev now, err.message⟩], [], 1⟩ := by
  have h1 : isFalsy (some secret) = false := by
    simp [isFalsy, hS]
  unfold serverWebhookEndpoint
  rw [h1, if_neg Bool.false_ne_true, if_neg Bool.false_ne_true]
  simp only [handleWebhookEvent_forward_failed, promiseIsTruthy, Bool.not_true,
    if_neg Bool.false_ne_true, JsError.message]

/-- Claim C3, counterexample: in the `unnamed/part_001` endpoint variant,
an event with a VALID signature that normalizes fine but whose downstream
forward times out is answered with HTTP 400 — the delivery failure IS
surfaced as a request failure to the webhook caller. -/
theorem C3_counterexample :
    (part001WebhookEndpoint (some "secret") false "payload"
        (some (hmacSha256Hex "secret" "payload")) (some exEvent) [] [] 0
        (.error exForwardTimeout) (.ok exResp) (.ok exResp)).response =
      ⟨400, .jsonError
        "Webhook processing failed: timeout of 40000ms exceeded"⟩ := by
  have hv := verify_correct_signature "payload" "secret" (by decide)
  unfold part001WebhookEndpoint
  rw [if_neg Bool.false_ne_true, hv]
  simp only [handleWebhookEvent_forward_failed]
  rfl

/-- Claim C3 (amended): `server.js`'s webhook endpoint answers HTTP 200
when the downstream forward fails (the failure appears only in the
response body), for every error whose enriched message does not happen to
contain `'Invalid webhook signature'`; the `part_001` endpoint variant,
by contrast, surfaces the same failure as HTTP 400 (see the
counterexample), so the claim holds for `server.js` but not for every
cited endpoint. -/
theorem C3_delivery_failure_returns_200 (secret raw : String)
    (hS : secret ≠ "") (sig : Option String) (ev : Event) (c : Cache)
    (failed : List FailedWebhook) (now : Nat) (err : DErr) (initOut dj : DOutcome)
    (hmsg : jsIncludesS ("Webhook processing failed: " ++ err.message)
        "Invalid webhook signature" = false) :
    (serverWebhookEndpoint (some secret) false raw sig (some ev) c failed now
        (.error err) initOut dj).response.status = 200 := by
  rw [serverEndpoint_forward_failed secret hS raw sig ev c failed now err initOut dj]
  show (serverCatchResponse _).status = 200
  unfold serverCatchResponse
  rw [hmsg, if_neg Bool.false_ne_true]

/-- Claim C3, witness: the amended theorem at a concrete timed-out
forward. -/
theorem C3_delivery_failure_returns_200_witness :
    (serverWebhookEndpoint (some "secret") false "payload" none (some exEvent)
        [] [] 0 (.error exForwardTimeout) (.ok exResp)
        (.ok exResp)).response.status = 200 :=
  C3_delivery_failure_returns_200 "secret" "payload" (by decide) none exEvent
    [] [] 0 exForwardTimeout (.ok exResp) (.ok exResp) (by decide)

/-- Claim C4, code evaluation at the failing input: with the secret
configured and an INVALID claimed signature (`verifyWebhookSignature`
would throw), `server.js`'s endpoint nonetheless processes the event to
completion — the un-awaited verification promise is truthy, so the
`if (!isValid)` rejection branch is dead: the forward attempt is made,
the cache is mutated for `user_42`, and the caller is answered 200
`Webhook processed successfully` instead of a 403 authentication
failure. -/
theorem C4_invalid_signature_still_processed :
    verifyWebhookSignature "raw" (some "bad") (some "s") =
      .error .invalidSignature ∧
    (serverWebhookEndpoint (some "s") false "raw" (some "bad") (some exEvent)
        [] [] 0 (.ok exResp) (.ok exResp) (.ok exResp)).response =
      ⟨200, .text "Webhook processed successfully"⟩ ∧
    (serverWebhookEndpoint (some "s") false "raw" (some "bad") (some exEvent)
        [] [] 0 (.ok exResp) (.ok exResp) (.ok exResp)).forwardAttempts = 1 ∧
    cacheGet (serverWebhookEndpoint (some "s") false "raw" (some "bad")
        (some exEvent) [] [] 0 (.ok exResp) (.ok exResp) (.ok exResp)).cache
        "user_42" =
      some { payload := mkWebhookPayload exEvent 0, djangoResponse := "ok"
             processedAt := 0 } := by
  refine ⟨verify_wrong_length "raw" "s" "bad" (by decide) (by decide)
    (by decide), rfl, rfl, rfl⟩

end Sumsub
